import Mathlib

/-!
Verification development for the flight-booking agent examples.

The definitions below are shallow embeddings of the Python source:
pure functions become Lean functions, Python dataclasses and pydantic
models become structures, and raising `ModelRetry` becomes returning an
error variant.  Code that lives in the external agent library (the turn
orchestrator, the usage ledger, the message-history helpers) is modelled
from the specification and marked as such in its doc comment.
-/

namespace FlightBooking

/-- Calendar date, standing in for Python datetime.date. -/
structure Date where
  year : Nat
  month : Nat
  day : Nat
deriving DecidableEq, Repr

/-- Two-digit zero padding, as in ISO date rendering. -/
def pad2 (n : Nat) : String :=
  if n < 10 then "0" ++ toString n else toString n

/-- ISO rendering of a date, matching how Python formats datetime.date
inside an f-string (e.g. 2025-01-10). -/
def Date.toIso (d : Date) : String :=
  toString d.year ++ "-" ++ pad2 d.month ++ "-" ++ pad2 d.day

/-- Embeds the FlightDetails pydantic model (src/flight_booking.py lines 14-20). -/
structure FlightDetails where
  flight_number : String
  price : Int
  origin : String
  destination : String
  date : Date
deriving DecidableEq, Repr

/-- Embeds the tagged union FlightDetails | NoFlightFound used as the search
agent result type (src/flight_booking.py lines 22-23 and 33-40). -/
inductive SearchResult where
  | flight (d : FlightDetails)
  | noFlightFound
deriving DecidableEq, Repr

/-- Embeds the Deps dataclass (src/flight_booking.py lines 25-30).  The
web_page_text field is annotated str in the source but main assigns None
to it, so it is embedded as an optional string. -/
structure Deps where
  web_page_text : Option String
  req_origin : String
  req_destination : String
  req_date : Date
deriving DecidableEq, Repr

/-- Outcome of the result validator: either the result is returned unchanged
or a ModelRetry carrying a message is raised. -/
inductive ValidationOutcome where
  | ok (r : SearchResult)
  | modelRetry (msg : String)
deriving DecidableEq, Repr

/-- The list of error messages built by validate_result for a FlightDetails
candidate, in the order the source appends them: origin, then destination,
then date (src/flight_booking.py lines 92-102). -/
def validationErrors (deps : Deps) (f : FlightDetails) : List String :=
  (if f.origin ≠ deps.req_origin then
    ["Flight should have origin " ++ deps.req_origin ++ ", not " ++ f.origin]
  else []) ++
  (if f.destination ≠ deps.req_destination then
    ["Flight should have destination " ++ deps.req_destination ++ ", not "
      ++ f.destination]
  else []) ++
  (if f.date ≠ deps.req_date then
    ["Flight should have date " ++ deps.req_date.toIso ++ ", not "
      ++ f.date.toIso]
  else [])

/-- Embeds validate_result (src/flight_booking.py lines 84-107): a
NoFlightFound result is returned at once; a FlightDetails result is checked
field by field, and any collected errors are joined with newlines into a
single ModelRetry. -/
def validate_result (deps : Deps) (result : SearchResult) : ValidationOutcome :=
  match result with
  | .noFlightFound => .ok result
  | .flight f =>
    let errors := validationErrors deps f
    if errors = [] then .ok result
    else .modelRetry (String.intercalate "\n" errors)

/-- The three constraint fields of Deps, in declaration order. -/
inductive ConstraintField where
  | origin
  | destination
  | date
deriving DecidableEq, Repr

/-- Declaration order of the constraint fields in Deps. -/
def constraintFields : List ConstraintField :=
  [.origin, .destination, .date]

/-- Whether the candidate flight mismatches the given constraint field. -/
def fieldMismatch (deps : Deps) (f : FlightDetails) : ConstraintField → Bool
  | .origin => f.origin ≠ deps.req_origin
  | .destination => f.destination ≠ deps.req_destination
  | .date => f.date ≠ deps.req_date

/-- The message validate_result emits for a mismatch of the given field. -/
def fieldMessage (deps : Deps) (f : FlightDetails) : ConstraintField → String
  | .origin =>
    "Flight should have origin " ++ deps.req_origin ++ ", not " ++ f.origin
  | .destination =>
    "Flight should have destination " ++ deps.req_destination ++ ", not "
      ++ f.destination
  | .date =>
    "Flight should have date " ++ deps.req_date.toIso ++ ", not " ++ f.date.toIso

/-- Whether a flight satisfies all three constraints of the deps. -/
def matchesConstraints (deps : Deps) (f : FlightDetails) : Bool :=
  f.origin == deps.req_origin && f.destination == deps.req_destination
    && f.date == deps.req_date

/-- The candidate pool, transcribed flight by flight from the
flights_web_page string (src/flight_booking.py lines 134-182): eight
listings, each with number, price in dollars, origin and destination
airport codes, and date. -/
def flightsPool : List FlightDetails :=
  [ { flight_number := "SFO-AK123", price := 350, origin := "SFO",
      destination := "ANC", date := ⟨2025, 1, 10⟩ },
    { flight_number := "SFO-AK456", price := 370, origin := "SFO",
      destination := "FAI", date := ⟨2025, 1, 10⟩ },
    { flight_number := "SFO-AK789", price := 400, origin := "SFO",
      destination := "JNU", date := ⟨2025, 1, 20⟩ },
    { flight_number := "NYC-LA101", price := 250, origin := "SFO",
      destination := "ANC", date := ⟨2025, 1, 10⟩ },
    { flight_number := "CHI-MIA202", price := 200, origin := "ORD",
      destination := "MIA", date := ⟨2025, 1, 12⟩ },
    { flight_number := "BOS-SEA303", price := 120, origin := "BOS",
      destination := "ANC", date := ⟨2025, 1, 12⟩ },
    { flight_number := "DFW-DEN404", price := 150, origin := "DFW",
      destination := "DEN", date := ⟨2025, 1, 10⟩ },
    { flight_number := "ATL-HOU505", price := 180, origin := "ATL",
      destination := "IAH", date := ⟨2025, 1, 10⟩ } ]

/-- The Deps value built at the top of main (src/flight_booking.py
lines 188-193): no web page text yet, origin SFO, destination ANC,
date 2025-01-10. -/
def mainDeps : Deps :=
  { web_page_text := none, req_origin := "SFO", req_destination := "ANC",
    req_date := ⟨2025, 1, 10⟩ }

/-! ### Usage ledger

The Usage and UsageLimits classes live in the external agent library; the
source only configures them (src/flight_booking.py lines 184-185 and
194-204).  They are modelled from the specification here. -/

/-- Modelled from the spec: the Usage Ledger of the external agent library
is a mutable counter of consumed units; only its configuration and threading
appear in the source. -/
structure Usage where
  requests : Nat
deriving DecidableEq, Repr

/-- Modelled from the spec: charging the ledger adds the consumed units to
the counter. -/
def Usage.charge (u : Usage) (units : Nat) : Usage :=
  ⟨u.requests + units⟩

/-- Modelled from the spec: an agent run invoked with a given ledger charges
its own cost to that same ledger. -/
def agentRunUsage (u : Usage) (cost : Nat) : Usage :=
  u.charge cost

/-- Embeds the ledger threading of extract_flights (src/flight_booking.py
lines 76-82): the nested extraction-agent run is invoked with the session
ledger (ctx.usage), so the cost of the sub-call is charged to the session
ledger it received, not to a fresh counter. -/
def extract_flights_usage (sessionUsage : Usage) (extractionCost : Nat) : Usage :=
  agentRunUsage sessionUsage extractionCost

/-- The request ceiling configured in the source:
UsageLimits(request_limit=15) (src/flight_booking.py line 185). -/
def request_limit : Nat := 15

/-- Modelled from the spec: checking a pending charge against the ceiling.
The check happens before the charge is committed: if the post-charge counter
would exceed the ceiling the ledger is returned unmodified inside a
BudgetExceeded error, otherwise the charge is committed. -/
def checkCharge (ceiling : Nat) (u : Usage) (units : Nat) : Except Usage Usage :=
  if ceiling < u.requests + units then .error u
  else .ok (u.charge units)

/-- Modelled from the spec: running a sequence of charges against the
ledger, stopping at the first BudgetExceeded. -/
def runCharges (ceiling : Nat) (u : Usage) : List Nat → Except Usage Usage
  | [] => .ok u
  | c :: cs =>
    match checkCharge ceiling u c with
    | .ok u2 => runCharges ceiling u2 cs
    | .error u2 => .error u2

/-! ### Turn orchestrator

The retry state machine lives in the external agent library; the source
only configures it with retries=4 (src/flight_booking.py line 36).  It is
modelled from the specification. -/

/-- The retry budget configured on search_agent (src/flight_booking.py
line 36). -/
def search_agent_retries : Nat := 4

/-- Outcome of one turn of the orchestrator. -/
inductive TurnOutcome where
  | accepted (r : SearchResult)
  | retriesExhausted
deriving DecidableEq, Repr

/-- Modelled from the spec: the Turn Orchestrator invokes the engine, routes
the candidate result to the validator, and on a retry directive re-enters
the engine until the retry budget is exhausted.  The engine is an opaque
function from the attempt index to a candidate result; the pair returned is
the outcome together with the number of attempts made. -/
def orchestrate (validate : SearchResult → ValidationOutcome)
    (engine : Nat → SearchResult) : Nat → Nat → TurnOutcome × Nat
  | 0, attempts => (.retriesExhausted, attempts)
  | budget + 1, attempts =>
    match validate (engine attempts) with
    | .ok r => (.accepted r, attempts + 1)
    | .modelRetry _ => orchestrate validate engine budget (attempts + 1)

/-! ### Session loop -/

/-- A conversation message.  Turn records produced by agent runs are kept
abstract; the synthetic corrective message carries its text. -/
inductive Message where
  | turn (n : Nat)
  | corrective (text : String)
deriving DecidableEq, Repr

/-- The synthetic corrective message the session loop feeds back after a
keep-searching decision (src/flight_booking.py lines 221-223). -/
def syntheticCorrective : Message :=
  .corrective "Please suggest another flight"

/-- Session-loop state: the accumulated conversation history and the shared
usage ledger (src/flight_booking.py lines 194-195). -/
structure SessionState where
  history : List Message
  usage : Usage
deriving DecidableEq, Repr

/-- One search_agent.run invocation as seen by the session loop
(src/flight_booking.py lines 198-204): the turn records produced by the run
are appended to the history it was given, and its cost is charged to the
ledger it was given. -/
def searchInvocation (st : SessionState) (turnMsgs : List Message)
    (cost : Nat) : SessionState :=
  { history := st.history ++ turnMsgs, usage := st.usage.charge cost }

/-- Modelled from the spec: the keep-searching branch of the session loop
(src/flight_booking.py lines 220-223) sets the next message history to all
prior turns plus one synthetic corrective message; the helper that builds
that history lives in the external agent library. -/
def keepSearching (st : SessionState) : SessionState :=
  { history := st.history ++ [syntheticCorrective], usage := st.usage }

/-- The answer given at the interactive prompt (src/flight_booking.py
lines 211-215). -/
inductive UserAnswer where
  | buy
  | search
deriving DecidableEq, Repr

/-- What the session loop decides after one orchestrator run. -/
inductive LoopDecision where
  | exitNoSolution
  | exitBuy (f : FlightDetails)
  | continueSearch
deriving DecidableEq, Repr

/-- Embeds the branch structure of the body of the while loop in main
(src/flight_booking.py lines 205-223): a NoFlightFound result prints
No flight found and breaks before the prompt is ever shown; a FlightDetails
result is offered to the caller, who either buys (loop exits) or keeps
searching (loop continues). -/
def sessionLoopBody (r : SearchResult) (answer : UserAnswer) : LoopDecision :=
  match r with
  | .noFlightFound => .exitNoSolution
  | .flight f =>
    match answer with
    | .buy => .exitBuy f
    | .search => .continueSearch

/-! ### Seat preference -/

/-- Embeds the SeatPreference pydantic model (src/flight_booking.py
lines 109-111).  The pydantic field constraints row ge=1 le=30 and the seat
literal are validated at construction, so the embedded structure carries
them as proof fields. -/
structure SeatPreference where
  row : Int
  seat : Char
  row_ge : 1 ≤ row
  row_le : row ≤ 30
  seat_mem : seat ∈ ['A', 'B', 'C', 'D', 'E', 'F']

/-- Embeds the tagged union SeatPreference | Failed returned by
seat_preference_agent (src/flight_booking.py lines 113-128). -/
inductive SeatResult where
  | pref (p : SeatPreference)
  | failed

/-- Embeds find_seat (src/flight_booking.py lines 236-251) over the
sequence of results the seat-preference agent produces: it returns the
first SeatPreference, printing and looping past every Failed before it,
and keeps waiting (returns none) if the sequence holds only Failed. -/
def find_seat : List SeatResult → Option SeatPreference
  | [] => none
  | .pref p :: _ => some p
  | .failed :: rest => find_seat rest

end FlightBooking

namespace RizaExample

/-- Result of the sandboxed execution, as used by execute_code
(src/pydanticAI and riza/pydantic.py lines 22-35). -/
structure ExecResult where
  exit_code : Int
  stdout : String
  stderr : String
deriving DecidableEq, Repr

/-- The retry message used when execution succeeds with empty stdout. -/
def noOutputMsg : String :=
  "Code executed successfully but produced no output. "
    ++ "Ensure your code includes print statements to get output."

/-- Embeds execute_code (src/pydanticAI and riza/pydantic.py lines 9-36):
a non-zero exit code raises ModelRetry with the stderr text, an empty
stdout raises ModelRetry with a fixed message, and otherwise stdout is
returned. -/
def execute_code (r : ExecResult) : Except String String :=
  if r.exit_code ≠ 0 then .error r.stderr
  else if r.stdout = "" then .error noOutputMsg
  else .ok r.stdout

end RizaExample

namespace WeatherAgent

/-- The weather-code table declared inside get_weather
(src/weather_agent.py lines 106-130). -/
def code_lookup : List (Nat × String) :=
  [ (1000, "Clear, Sunny"), (1100, "Mostly Clear"), (1101, "Partly Cloudy"),
    (1102, "Mostly Cloudy"), (1001, "Cloudy"), (2000, "Foggy"),
    (2100, "Light Fog"), (4000, "Drizzle"), (4001, "Rain"),
    (4200, "Light Rain"), (4201, "Heavy Rain"), (5000, "Snow"),
    (5001, "Flurries"), (5100, "Light Snow"), (5101, "Heavy Snow"),
    (6000, "Freezing Drizzle"), (6001, "Freezing Rain"),
    (6200, "Light Freezing Rain"), (6201, "Heavy Freezing Rain"),
    (7000, "Ice Pellets"), (7101, "Heavy Ice Pellets"),
    (7102, "Light Ice Pellets"), (8000, "Thunderstorm") ]

/-- A Python runtime error. -/
inductive PyError where
  | typeError (msg : String)
deriving DecidableEq, Repr

/-- The values object of a realtime weather response: the fields
get_weather reads (src/weather_agent.py lines 104 and 131-133). -/
structure WeatherValues where
  temperature : Int
  weatherCode : Nat
deriving DecidableEq, Repr

/-- The result dict built by get_weather when an API key is present. -/
structure WeatherResult where
  temperature : String
  description : String
deriving DecidableEq, Repr

/-- Embeds the description expression of get_weather exactly as written in
the source (src/weather_agent.py line 133): the expression is a call
code_lookup(code, default) applied to the dict object code_lookup, and a
dict object is not callable, so evaluating it raises TypeError. -/
def descriptionExpr (_code : Nat) (_dflt : String) : Except PyError String :=
  Except.error (.typeError "dict object is not callable")

/-- What the call would compute if it were the dict method get with a
default, i.e. code_lookup.get(code, dflt): the table entry for a known
code, the default for an unknown one. -/
def dictGet (code : Nat) (dflt : String) : String :=
  match code_lookup.find? (fun p => p.1 == code) with
  | some p => p.2
  | none => dflt

/-- Embeds the API-key-present tail of get_weather (src/weather_agent.py
lines 104-134): format the temperature, evaluate the description
expression, and build the result dict. -/
def get_weather (values : WeatherValues) : Except PyError WeatherResult := do
  let desc ← descriptionExpr values.weatherCode "Unknown"
  pure { temperature := toString values.temperature ++ " ℃",
         description := desc }

end WeatherAgent

namespace FlightBooking

/-- If the validator always answers with a retry directive, the orchestrator
walks the whole retry budget down to zero, adding one attempt per step. -/
theorem orchestrate_always_retry (validate : SearchResult → ValidationOutcome)
    (engine : Nat → SearchResult)
    (h : ∀ r, ∃ m, validate r = ValidationOutcome.modelRetry m) :
    ∀ budget attempts, orchestrate validate engine budget attempts
      = (TurnOutcome.retriesExhausted, attempts + budget) := by
  intro budget
  induction budget with
  | zero => intro attempts; simp [orchestrate]
  | succ b ih =>
    intro attempts
    obtain ⟨m, hm⟩ := h (engine attempts)
    rw [orchestrate, hm, ih (attempts + 1)]
    simp [Nat.add_assoc, Nat.add_comm 1 b]

/-- C1: validate_result accepts a FlightDetails candidate exactly when its
origin, destination and date each equal the corresponding required value of
the deps; the error list holds exactly one message per mismatched field, in
the declaration order of the constraint fields (origin, destination, date);
and whenever the error list is nonempty the validator raises a single
ModelRetry joining those messages in that order.  Two runs on the same input
agree because validate_result is a pure function of its arguments. -/
theorem C1_validate_result_spec (deps : Deps) (f : FlightDetails) :
    (validate_result deps (SearchResult.flight f)
        = ValidationOutcome.ok (SearchResult.flight f) ↔
      f.origin = deps.req_origin ∧ f.destination = deps.req_destination ∧
        f.date = deps.req_date)
    ∧ validationErrors deps f
        = (constraintFields.filter (fieldMismatch deps f)).map
            (fieldMessage deps f)
    ∧ (validationErrors deps f ≠ [] →
        validate_result deps (SearchResult.flight f)
          = ValidationOutcome.modelRetry
              (String.intercalate "\n" (validationErrors deps f))) := by
  refine ⟨?_, ?_, ?_⟩
  · unfold validate_result validationErrors
    by_cases h1 : f.origin = deps.req_origin <;>
      by_cases h2 : f.destination = deps.req_destination <;>
        by_cases h3 : f.date = deps.req_date <;>
          simp [h1, h2, h3]
  · unfold validationErrors constraintFields fieldMismatch fieldMessage
    by_cases h1 : f.origin = deps.req_origin <;>
      by_cases h2 : f.destination = deps.req_destination <;>
        by_cases h3 : f.date = deps.req_date <;>
          simp [h1, h2, h3]
  · intro hne
    unfold validate_result
    simp [hne]

/-- C2 counterexample: the candidate pool does not contain exactly one
flight matching all three constraints of main (origin SFO, destination ANC,
date 2025-01-10) — it contains two, SFO-AK123 and NYC-LA101. -/
theorem C2_pool_counterexample :
    ¬ (flightsPool.filter (fun f => matchesConstraints mainDeps f)).length
        = 1 := by
  decide

/-- C2 amended: the candidate pool contains exactly two flights matching
all three constraints, with prices 350 and 250 in pool order, so any pool
flight the validator accepts for the deps of main — and hence any success
the session loop can report from the pool — has price 350 or 250. -/
theorem C2_pool_two_matches :
    (flightsPool.filter (fun f => matchesConstraints mainDeps f)).map
        (fun f => f.price) = [350, 250]
    ∧ ∀ f ∈ flightsPool,
        validate_result mainDeps (SearchResult.flight f)
            = ValidationOutcome.ok (SearchResult.flight f) →
          f.price = 350 ∨ f.price = 250 := by
  decide

/-- C3: with a validator that answers Retry on every call, the orchestrator
configured with the retry budget of search_agent (retries=4) terminates in
RETRIES_EXHAUSTED after exactly four attempts; termination itself is
structural in the budget. -/
theorem C3_retry_bound (validate : SearchResult → ValidationOutcome)
    (engine : Nat → SearchResult)
    (h : ∀ r, ∃ m, validate r = ValidationOutcome.modelRetry m) :
    orchestrate validate engine search_agent_retries 0
      = (TurnOutcome.retriesExhausted, 4) :=
  orchestrate_always_retry validate engine h search_agent_retries 0

/-- Concrete run of the C3 theorem: an always-retry validator against an
engine that always proposes NoFlightFound exhausts the four attempts. -/
theorem C3_retry_bound_witness :
    orchestrate (fun _ => ValidationOutcome.modelRetry "try again")
        (fun _ => SearchResult.noFlightFound) search_agent_retries 0
      = (TurnOutcome.retriesExhausted, 4) :=
  C3_retry_bound (fun _ => ValidationOutcome.modelRetry "try again")
    (fun _ => SearchResult.noFlightFound) (fun _ => ⟨"try again", rfl⟩)

/-- A charge sequence runs to completion with the total committed exactly
when every post-charge running sum stays within the ceiling. -/
theorem runCharges_ok_iff (M : Nat) (cs : List Nat) :
    ∀ u0, runCharges M ⟨u0⟩ cs = Except.ok ⟨u0 + cs.sum⟩ ↔
      ∀ k < cs.length, u0 + ((cs.take (k + 1)).sum) ≤ M := by
  induction cs with
  | nil => intro u0; simp [runCharges]
  | cons c cs ih =>
    intro u0
    by_cases hc : M < u0 + c
    · simp only [runCharges, checkCharge, if_pos hc]
      constructor
      · intro h; exact absurd h (by simp)
      · intro h
        have h0 := h 0 (by simp)
        simp [List.take] at h0
        omega
    · simp only [runCharges, checkCharge, if_neg hc, Usage.charge]
      rw [show u0 + (c :: cs).sum = (u0 + c) + cs.sum by
        simp [List.sum_cons]; omega]
      rw [ih (u0 + c)]
      constructor
      · intro h k hk
        match k with
        | 0 => simpa [List.take] using Nat.le_of_not_lt hc
        | j + 1 =>
          have := h j (by simpa using hk)
          simp only [List.take, List.sum_cons]
          simp only [List.sum_cons] at this
          omega
      · intro h j hj
        have := h (j + 1) (by simpa using hj)
        simp only [List.take, List.sum_cons] at this
        omega

/-- When the running sum first exceeds the ceiling at the charge of index k,
the run fails and the ledger holds exactly the charges committed before that
check: the rejected charge is not committed, even in part. -/
theorem runCharges_first_fail (M : Nat) (cs : List Nat) :
    ∀ u0 k, k < cs.length →
      (∀ j < k, u0 + ((cs.take (j + 1)).sum) ≤ M) →
      M < u0 + ((cs.take (k + 1)).sum) →
      runCharges M ⟨u0⟩ cs = Except.error ⟨u0 + (cs.take k).sum⟩ := by
  induction cs with
  | nil => intro u0 k hk; simp at hk
  | cons c cs ih =>
    intro u0 k hk hpass hexceed
    match k with
    | 0 =>
      simp only [List.take_succ_cons, List.take_zero, List.sum_cons,
        List.sum_nil] at hexceed
      have hcheck : checkCharge M ⟨u0⟩ c = Except.error ⟨u0⟩ := by
        unfold checkCharge
        rw [if_pos (show M < u0 + c by omega)]
      simp [runCharges, hcheck]
    | j + 1 =>
      have h0 : u0 + c ≤ M := by
        have := hpass 0 (Nat.succ_pos j)
        simpa using this
      have hcheck : checkCharge M ⟨u0⟩ c = Except.ok ⟨u0 + c⟩ := by
        unfold checkCharge
        rw [if_neg (show ¬ M < u0 + c by omega)]
        rfl
      have hrec := ih (u0 + c) j (by simpa using hk)
        (by
          intro j2 hj2
          have := hpass (j2 + 1) (by omega)
          simp only [List.take_succ_cons, List.sum_cons] at this
          omega)
        (by
          simp only [List.take_succ_cons, List.sum_cons] at hexceed
          omega)
      simp only [runCharges, hcheck, hrec, List.take_succ_cons, List.sum_cons]
      rw [Nat.add_assoc]

/-- C5: for every sequence of charges against a fresh ledger with ceiling M,
the run succeeds with the total committed exactly when no post-charge
running sum exceeds M; and at the first index whose running sum would exceed
M the run fails with BudgetExceeded while the counter still equals its value
before the rejected check — no partially committed charge. -/
theorem C5_budget_check (M u0 : Nat) (cs : List Nat) :
    (runCharges M ⟨u0⟩ cs = Except.ok ⟨u0 + cs.sum⟩ ↔
      ∀ k < cs.length, u0 + ((cs.take (k + 1)).sum) ≤ M)
    ∧ ∀ k < cs.length,
        (∀ j < k, u0 + ((cs.take (j + 1)).sum) ≤ M) →
        M < u0 + ((cs.take (k + 1)).sum) →
        runCharges M ⟨u0⟩ cs = Except.error ⟨u0 + (cs.take k).sum⟩ :=
  ⟨runCharges_ok_iff M cs u0, fun k hk => runCharges_first_fail M cs u0 k hk⟩

/-- Concrete run of the C5 theorem at the configured ceiling of 15: after a
committed charge of 10, a further charge of 10 is rejected and the counter
stays at 10. -/
theorem C5_budget_check_witness :
    runCharges request_limit ⟨0⟩ [10, 10]
      = Except.error ⟨0 + (([10, 10] : List Nat).take 1).sum⟩ :=
  (C5_budget_check request_limit 0 [10, 10]).2 1 (by decide)
    (by decide) (by decide)

/-- C4: the ledger counter never decreases under any sequence of charges,
and extract_flights threads the session ledger into the nested
extraction-agent run, so the cost of the sub-call is added to the session
total it received rather than to a fresh counter. -/
theorem C4_ledger_monotone_shared (u : Usage) (costs : List Nat) (c : Nat) :
    u.requests ≤ (costs.foldl Usage.charge u).requests
    ∧ (extract_flights_usage u c).requests = u.requests + c := by
  refine ⟨?_, rfl⟩
  induction costs generalizing u with
  | nil => exact Nat.le_refl _
  | cons a as ih =>
    exact Nat.le_trans (Nat.le_add_right u.requests a) (ih (u.charge a))

/-- C6: a NoFlightFound result passes the validator unconditionally — no
constraint field is inspected, whatever the deps — and the session loop
exits reporting no solution on such a result before the interactive prompt,
whatever answer the caller would have given, rather than retrying. -/
theorem C6_no_flight_found (deps : Deps) (answer : UserAnswer) :
    validate_result deps SearchResult.noFlightFound
        = ValidationOutcome.ok SearchResult.noFlightFound
    ∧ sessionLoopBody SearchResult.noFlightFound answer
        = LoopDecision.exitNoSolution
    ∧ sessionLoopBody SearchResult.noFlightFound answer
        ≠ LoopDecision.continueSearch :=
  ⟨rfl, rfl, fun hcon => LoopDecision.noConfusion hcon⟩

/-- C7: after a keep-searching decision, the history handed to the next
orchestrator invocation is all prior turns unchanged followed by exactly
one synthetic corrective message, and the ledger total carried into that
invocation accumulates the costs of both invocations instead of being
reset. -/
theorem C7_requery_history_and_usage (h0 m1 m2 : List Message)
    (u0 c1 c2 : Nat) :
    (keepSearching (searchInvocation ⟨h0, ⟨u0⟩⟩ m1 c1)).history
        = (h0 ++ m1) ++ [syntheticCorrective]
    ∧ (searchInvocation (keepSearching (searchInvocation ⟨h0, ⟨u0⟩⟩ m1 c1))
        m2 c2).usage.requests = u0 + c1 + c2 := by
  constructor
  · rfl
  · rfl

/-- C8: whatever SeatPreference find_seat returns satisfies the pydantic
constraints 1 ≤ row ≤ 30 and seat ∈ {A,…,F}, and find_seat returns only at
the first SeatPreference the agent produces, looping past each preceding
Failed result. -/
theorem C8_find_seat_invariant (rs : List SeatResult) (p : SeatPreference)
    (h : find_seat rs = some p) :
    (1 ≤ p.row ∧ p.row ≤ 30 ∧ p.seat ∈ ['A', 'B', 'C', 'D', 'E', 'F'])
    ∧ ∃ n, (∀ j < n, rs.get? j = some SeatResult.failed)
        ∧ rs.get? n = some (SeatResult.pref p) := by
  induction rs with
  | nil => exact absurd h (by simp [find_seat])
  | cons r rest ih =>
    cases r with
    | pref q =>
      have hq : q = p := by
        simpa [find_seat] using h
      subst hq
      refine ⟨⟨q.row_ge, q.row_le, q.seat_mem⟩, 0, ?_, rfl⟩
      intro j hj
      exact absurd hj (Nat.not_lt_zero j)
    | failed =>
      have h2 : find_seat rest = some p := h
      obtain ⟨hinv, n, hbefore, hat⟩ := ih h2
      refine ⟨hinv, n + 1, ?_, hat⟩
      intro j hj
      match j with
      | 0 => rfl
      | j2 + 1 => exact hbefore j2 (by omega)

/-- A concrete seat value satisfying the pydantic constraints. -/
def sampleSeat : SeatPreference :=
  ⟨3, 'A', by omega, by omega, by decide⟩

/-- Concrete run of the C8 theorem: on the response sequence Failed then
SeatPreference, find_seat skips the Failed and returns the seat, which
satisfies the constraints. -/
theorem C8_find_seat_invariant_witness :
    (1 ≤ sampleSeat.row ∧ sampleSeat.row ≤ 30
        ∧ sampleSeat.seat ∈ ['A', 'B', 'C', 'D', 'E', 'F'])
    ∧ ∃ n, (∀ j < n,
          [SeatResult.failed, SeatResult.pref sampleSeat].get? j
            = some SeatResult.failed)
        ∧ [SeatResult.failed, SeatResult.pref sampleSeat].get? n
            = some (SeatResult.pref sampleSeat) :=
  C8_find_seat_invariant [SeatResult.failed, SeatResult.pref sampleSeat]
    sampleSeat rfl

end FlightBooking

namespace RizaExample

/-- C9: execute_code returns a value exactly when the execution exits with
code 0 and non-empty stdout; every returned value is that non-empty stdout,
and in all other cases a ModelRetry is raised instead. -/
theorem C9_execute_code_spec (r : ExecResult) :
    (execute_code r = Except.ok r.stdout ↔ r.exit_code = 0 ∧ r.stdout ≠ "")
    ∧ (∀ s, execute_code r = Except.ok s → s = r.stdout ∧ s ≠ "")
    ∧ (¬ (r.exit_code = 0 ∧ r.stdout ≠ "") →
        ∃ msg, execute_code r = Except.error msg) := by
  unfold execute_code
  by_cases h1 : r.exit_code = 0 <;> by_cases h2 : r.stdout = "" <;>
    simp [h1, h2]

end RizaExample

namespace WeatherAgent

/-- C10: evaluating the description step of get_weather raises TypeError on
every response — the source calls the dict object code_lookup as a function
— whereas the dict lookup the code intends (get with default) yields the
table name for a known code and Unknown for an unknown one. -/
theorem C10_weather_lookup_raises (v : WeatherValues) :
    get_weather v
        = Except.error (PyError.typeError "dict object is not callable")
    ∧ dictGet 1000 "Unknown" = "Clear, Sunny"
    ∧ dictGet 9999 "Unknown" = "Unknown" :=
  ⟨rfl, rfl, rfl⟩

end WeatherAgent
